import Mathlib

/-!
# sliyy: window splitting, statistic aggregation and series alignment

A shallow embedding of the core of `atsushi-ishibashi/sliyy`:

* `svc/cloudwatch_metrics.go`: `splitTime`, `GetMetricStatisticInput.validate`,
  `StaticType.validate`, `ListMetricsInput.matchDimentions`,
  `cwmService.GetMetricStatistic`;
* `model/metric.go`: `MetricStatistic`, `MetricStatisticList.Less`;
* `cmd/sliyy/main.go`: the alignment loop of `calcAvalability`.

Conventions of the embedding.

* A `time.Time` is the integer number of nanoseconds elapsed since the zero
  instant of Go (January 1, year 1, 00:00:00 UTC) on an unbounded time line, so
  that `IsZero` is equality with `0`, `Equal` is equality, `Before` is `<`
  and `After` is `>`.
* A `time.Duration` is an `int64` count of nanoseconds: an `Int` that every
  arithmetic operation reduces with `wrap64` (two's complement), and
  `Time.Sub` saturates at `minDuration` / `maxDuration` as the Go library does.
* `int` is the 64-bit `int` of the platforms the tool is built for.
* A `float64` sample value is an abstract type `V`; the conversions the code
  applies to it are parameters.
-/

namespace Sliyy

/-! ## Time -/

/-- Smallest `time.Duration`, `-1 << 63`. -/
def minDuration : Int := -9223372036854775808

/-- Largest `time.Duration`, `1<<63 - 1`. -/
def maxDuration : Int := 9223372036854775807

/-- Go `time.Second`. -/
def Second : Int := 1000000000

/-- Go `time.Minute`. -/
def Minute : Int := 60 * Second

/-- Go `time.Hour`. -/
def Hour : Int := 60 * Minute

/-- Reduction of an integer to the `int64` it is stored as (two's complement). -/
def wrap64 (x : Int) : Int :=
  (x + 9223372036854775808) % 18446744073709551616 - 9223372036854775808

/-- Product of two `int64` values, as Go computes `a * b`. -/
def mul64 (a b : Int) : Int := wrap64 (a * b)

/-- Quotient of two `int64` values, as Go computes `a / b` for `b ≠ 0`:
truncated toward zero, the one overflowing quotient wrapping around. -/
def div64 (a b : Int) : Int := wrap64 (Int.tdiv a b)

/-- Go `t.Sub(u)`: the duration `t - u`, saturated to the `int64` range. -/
def Time.Sub (t u : Int) : Int :=
  if t - u < minDuration then minDuration
  else if maxDuration < t - u then maxDuration
  else t - u

/-- Go `t.Add(d)`. -/
def Time.Add (t : Int) (d : Int) : Int := t + d

/-- Go `t.Before(u)`. -/
def Time.Before (t u : Int) : Bool := decide (t < u)

/-- Go `t.After(u)`. -/
def Time.After (t u : Int) : Bool := decide (u < t)

/-- Go `t.Equal(u)`. -/
def Time.Equal (t u : Int) : Bool := decide (t = u)

/-- Go `t.IsZero()`. -/
def Time.IsZero (t : Int) : Bool := decide (t = 0)

/-! ## Window splitter (`svc/cloudwatch_metrics.go`, `splitTime`) -/

/-- The constant `limit` of `splitTime`. -/
def limit : Int := 1441

/-- Body of the loop of `splitTime` at counter value `count`: the window
`[2]time.Time{ts, te}` that the iteration appends. -/
def splitWindow (start end_ : Int) (period : Int) (count : Int) : Int × Int :=
  let ts := Time.Add start (mul64 (mul64 period limit) count)
  let te := Time.Add start (mul64 (mul64 period (limit - 1)) (count + 1))
  let te := if Time.Before end_ te then end_ else te
  (ts, te)

/-- The function `splitTime`. The result is `none` when the code panics: on
the division `diff / period` for `period = 0`, and on
`make([][2]time.Time, 0, mod)` for a negative capacity `mod`. Otherwise the
loop `for count < mod` appends one window for `count = 0, 1, ..., mod - 1`.
(The memory the slice takes is not modelled.) -/
def splitTime (start end_ : Int) (period : Int) : Option (List (Int × Int)) :=
  if period = 0 then none
  else
    let diff := Time.Sub end_ start
    let unit := div64 diff period
    let mod := Int.tdiv unit limit + 1
    if mod < 0 then none
    else some ((List.range mod.toNat).map fun (count : Nat) => splitWindow start end_ period count)

/-! ## Data model (`model/metric.go` and the backend client's types) -/

/-- The struct `model.MetricDimension`. -/
structure MetricDimension where
  Name : String
  Value : String
deriving DecidableEq, Repr

/-- The struct `model.MetricStatistic`; `V` stands for `float64`. -/
structure MetricStatistic (V : Type) where
  Timestamp : Int
  Value : V
deriving DecidableEq, Repr

/-- The method `MetricStatisticList.Less`, on the two elements it compares. -/
def MetricStatistic.Less {V : Type} (a b : MetricStatistic V) : Bool :=
  Time.Before a.Timestamp b.Timestamp

/-- The struct `cloudwatch.Dimension` of the backend client. Its two fields are
`*string`, set in every dimension the backend lists and in every one the code
builds; a `nil` name is not modelled. -/
structure Dimension where
  Name : String
  Value : String
deriving DecidableEq, Repr

/-- The struct `cloudwatch.Datapoint` of the backend client, with the fields
the code reads; each is a pointer, `none` being `nil`. -/
structure Datapoint (V : Type) where
  Timestamp : Option Int
  Sum : Option V
  Average : Option V
  Maximum : Option V
  Minimum : Option V
  SampleCount : Option V
deriving DecidableEq, Repr

/-- The struct `cloudwatch.GetMetricStatisticsInput` of the backend client,
with the fields the code sets. -/
structure GetMetricStatisticsInput where
  Namespace : String
  MetricName : String
  StartTime : Int
  EndTime : Int
  Period : Int
  Statistics : List String
  Dimensions : List Dimension
deriving DecidableEq, Repr

/-- A Go `error` value met in `GetMetricStatistic`: one built in this package
by `errors.New` or `fmt.Errorf`, identified by its text, or one returned by the
backend client, of an arbitrary type `E`. -/
inductive Error (E : Type) where
  | text (msg : String) : Error E
  | backend (e : E) : Error E
deriving DecidableEq, Repr

/-! ## Metric discovery (`ListMetricsInput.matchDimentions`) -/

/-- The struct `ListMetricsInput`. -/
structure ListMetricsInput where
  NameSpace : String
  Metrics : List String
  Dimentions : List String
deriving DecidableEq, Repr

/-- Inner loop of `matchDimentions` for one metric dimension name: scan the
required names, on the first equal one increment `matchCount` and `break`. -/
def matchInner (name : String) : List String → Nat → Nat
  | [], matchCount => matchCount
  | vv :: rest, matchCount =>
    if vv = name then matchCount + 1 else matchInner name rest matchCount

/-- The method `ListMetricsInput.matchDimentions`. -/
def ListMetricsInput.matchDimentions (i : ListMetricsInput) (dims : List Dimension) : Bool :=
  if i.Dimentions.length ≠ dims.length then false
  else
    let matchCount := dims.foldl (fun matchCount v => matchInner v.Name i.Dimentions matchCount) 0
    decide (i.Dimentions.length = matchCount)

/-! ## Statistic aggregator (`GetMetricStatisticInput`, `GetMetricStatistic`) -/

/-- The constant `StaticAverage`. -/
def StaticAverage : String := "Average"

/-- The constant `StaticSampleCount`. -/
def StaticSampleCount : String := "SampleCount"

/-- The constant `StaticSum`. -/
def StaticSum : String := "Sum"

/-- The constant `StaticMinimum`. -/
def StaticMinimum : String := "Minimum"

/-- The constant `StaticMaximum`. -/
def StaticMaximum : String := "Maximum"

/-- The struct `GetMetricStatisticInput`; `Type_` is the field `Type`, a
`StaticType`, which is a string. -/
structure GetMetricStatisticInput where
  NameSpace : String
  MetricName : String
  Dimensions : List MetricDimension
  Period : Int
  Start : Int
  End : Int
  Type_ : String
deriving DecidableEq, Repr

/-- The method `StaticType.validate`: `none` is the `nil` error, `some msg` an
error of text `msg`. -/
def StaticType.validate (st : String) : Option String :=
  if st = StaticAverage ∨ st = StaticSampleCount ∨ st = StaticSum
      ∨ st = StaticMinimum ∨ st = StaticMaximum then none
  else some ("invalid StaticType " ++ st)

/-- The method `GetMetricStatisticInput.validate`: `none` is the `nil` error,
`some msg` an error of text `msg`. -/
def GetMetricStatisticInput.validate (i : GetMetricStatisticInput) : Option String :=
  if i.NameSpace = "" then some "GetMetricStatisticInput.NameSpace is empty"
  else if i.MetricName = "" then some "GetMetricStatisticInput.MetricName is empty"
  else if i.Dimensions.length = 0 then some "GetMetricStatisticInput.Dimensions is empty"
  else if i.Period = 0 then some "GetMetricStatisticInput.Period is empty"
  else if Time.IsZero i.Start then some "GetMetricStatisticInput.Start is empty"
  else if Time.IsZero i.End then some "GetMetricStatisticInput.End is empty"
  else
    match StaticType.validate i.Type_ with
    | some err => some err
    | none => none

/-- What `GetMetricStatistic` uses and this repository does not define:
`zero` is the `float64` zero that `aws.Float64Value` gives for `nil`,
`periodSeconds d` is `int64(d.Seconds())`, `sortSort` is
`sort.Sort(model.MetricStatisticList(·))` of the Go library, and
`GetMetricStatistics` is the backend call, which from a backend state and a
query gives the response or an error, and the next backend state. -/
structure Env (V σ E : Type) where
  zero : V
  periodSeconds : Int → Int
  sortSort : List (MetricStatistic V) → List (MetricStatistic V)
  GetMetricStatistics : σ → GetMetricStatisticsInput → Except E (List (Datapoint V)) × σ

/-- What a call of `GetMetricStatistic` produces: the two returned values
(`result`, a `nil` slice being `[]`, and `err`, `none` being `nil`), the
queries it issued to the backend, in order, and the backend state it leaves. -/
structure Outcome (V σ E : Type) where
  result : List (MetricStatistic V)
  err : Option (Error E)
  calls : List GetMetricStatisticsInput
  state : σ

/-- The query `param` that `GetMetricStatistic` builds for one sub-window. -/
def mkParam {V σ E : Type} (env : Env V σ E) (input : GetMetricStatisticInput)
    (times : Int × Int) : GetMetricStatisticsInput :=
  { Namespace := input.NameSpace
    MetricName := input.MetricName
    StartTime := times.1
    EndTime := times.2
    Period := env.periodSeconds input.Period
    Statistics := [input.Type_]
    Dimensions := input.Dimensions.map fun dim => { Name := dim.Name, Value := dim.Value } }

/-- The statistic `ms` that `GetMetricStatistic` builds from one datapoint `v`
of a response: `aws.TimeValue` of the timestamp and, by the `switch` on
`input.Type`, `aws.Float64Value` of the matching field. -/
def toStatistic {V : Type} (zero : V) (type : String) (v : Datapoint V) : MetricStatistic V :=
  { Timestamp := v.Timestamp.getD 0
    Value :=
      if type = StaticSum then v.Sum.getD zero
      else if type = StaticAverage then v.Average.getD zero
      else if type = StaticMaximum then v.Maximum.getD zero
      else if type = StaticMinimum then v.Minimum.getD zero
      else if type = StaticSampleCount then v.SampleCount.getD zero
      else zero }

/-- The loop `for _, times := range splitTimes` of `GetMetricStatistic` with
what follows it, from the remaining sub-windows, the backend state, the
`result` collected so far and the queries issued so far. -/
def fetchLoop {V σ E : Type} (env : Env V σ E) (input : GetMetricStatisticInput) :
    List (Int × Int) → σ → List (MetricStatistic V) → List GetMetricStatisticsInput →
      Outcome V σ E
  | [], s, result, calls =>
    { result := env.sortSort result, err := none, calls := calls, state := s }
  | times :: rest, s, result, calls =>
    let param := mkParam env input times
    match env.GetMetricStatistics s param with
    | (Except.error err, s1) =>
      { result := result, err := some (Error.backend err), calls := calls ++ [param], state := s1 }
    | (Except.ok resp, s1) =>
      fetchLoop env input rest s1
        (result ++ resp.map (toStatistic env.zero input.Type_)) (calls ++ [param])

/-- The method `cwmService.GetMetricStatistic`, run from backend state `s`.
The result is `none` when `splitTime` panics. -/
def GetMetricStatistic {V σ E : Type} (env : Env V σ E) (s : σ)
    (input : GetMetricStatisticInput) : Option (Outcome V σ E) :=
  match input.validate with
  | some err => some { result := [], err := some (Error.text err), calls := [], state := s }
  | none =>
    match splitTime input.Start input.End input.Period with
    | none => none
    | some splitTimes => some (fetchLoop env input splitTimes s [] [])

/-- Runs of successful backend queries: `Succeeds api s qs rs s1` says that
issuing the queries `qs` in order from backend state `s` gives the responses
`rs`, none an error, and leaves the backend in state `s1`. -/
inductive Succeeds {σ Q R E : Type} (api : σ → Q → Except E R × σ) :
    σ → List Q → List R → σ → Prop where
  | nil (s : σ) : Succeeds api s [] [] s
  | cons {s s1 s2 : σ} {q : Q} {qs : List Q} {r : R} {rs : List R} :
      api s q = (Except.ok r, s1) → Succeeds api s1 qs rs s2 →
        Succeeds api s (q :: qs) (r :: rs) s2

/-- An example backend and Go library for `GetMetricStatistic`: samples are
integers, the backend state counts the queries received, the query received in
state `1` fails and every other one answers with two datapoints of the `Sum`
statistic, the one at the end of the queried window first; sorting is insertion
sort on the timestamp. -/
def demoEnv : Env Int Nat String where
  zero := 0
  periodSeconds := fun d => Int.tdiv d 1000000000
  sortSort := List.insertionSort (fun a b => a.Timestamp ≤ b.Timestamp)
  GetMetricStatistics := fun n q =>
    if n = 1 then (Except.error "Throttling", n + 1)
    else
      (Except.ok
        [{ Timestamp := some q.EndTime, Sum := some 7, Average := none, Maximum := none,
           Minimum := none, SampleCount := none },
         { Timestamp := some q.StartTime, Sum := some 3, Average := none, Maximum := none,
           Minimum := none, SampleCount := none }],
        n + 1)

/-- An example input of `GetMetricStatistic`, as `calcAvalability` builds it:
three days from 2000-01-01T00:00:00Z at a period of one minute. -/
def demoInput : GetMetricStatisticInput where
  NameSpace := "AWS/ApplicationELB"
  MetricName := "RequestCountPerTarget"
  Dimensions := [{ Name := "TargetGroup", Value := "targetgroup/tg/2" }]
  Period := Minute
  Start := 63082281600 * Second
  End := 63082281600 * Second + 72 * Hour
  Type_ := StaticSum

/-! ## Series alignment (`cmd/sliyy/main.go`, `calcAvalability`) -/

/-- One bucket of the availability report: what the alignment loop appends to
`timeStampStr`, `normCounts` and `errCounts` before formatting (the instant,
`int(st.Value)` and `errCount`). The fourth column, `avails`, is a `float64`
quotient formatted to text and is not part of the embedding. -/
structure Row where
  timeStamp : Int
  normCount : Int
  errCount : Int
deriving DecidableEq, Repr

/-- The inner loop `for _, est := range v.Request5xxCountStat` for one point
`st` of the total series, from the remaining error points and the current
`errCount`; `toInt` is the conversion `int(·)` of a `float64`. -/
def errCountLoop {V : Type} (toInt : V → Int) (st : MetricStatistic V) :
    List (MetricStatistic V) → Int → Int
  | [], errCount => errCount
  | est :: rest, errCount =>
    if Time.Equal est.Timestamp st.Timestamp then errCountLoop toInt st rest (toInt est.Value)
    else if Time.After est.Timestamp st.Timestamp then errCount
    else errCountLoop toInt st rest errCount

/-- The loop `for _, st := range v.RequestCountStat` of `calcAvalability`:
one row appended per point of the total series, `errCount` starting at `0`. -/
def alignRows {V : Type} (toInt : V → Int)
    (RequestCountStat Request5xxCountStat : List (MetricStatistic V)) : List Row :=
  RequestCountStat.map fun st =>
    { timeStamp := st.Timestamp
      normCount := toInt st.Value
      errCount := errCountLoop toInt st Request5xxCountStat 0 }

/-! ## Auxiliary facts on `int64` arithmetic -/

theorem wrap64_of_range {x : Int} (h1 : minDuration ≤ x) (h2 : x ≤ maxDuration) :
    wrap64 x = x := by
  unfold minDuration at h1
  unfold maxDuration at h2
  unfold wrap64
  omega

theorem wrap64_le_self {x : Int} (h : 0 ≤ x) : wrap64 x ≤ x := by
  have h1 := Int.emod_lt_of_pos (x + 9223372036854775808)
    (show (0 : Int) < 18446744073709551616 by norm_num)
  unfold wrap64
  omega

theorem wrap64_sub_mul (x m : Int) : wrap64 (x - m * 18446744073709551616) = wrap64 x := by
  unfold wrap64
  have h : x - m * 18446744073709551616 + 9223372036854775808
      = (x + 9223372036854775808) + (-m) * 18446744073709551616 := by ring
  rw [h, Int.add_mul_emod_self]

theorem wrap64_eq_sub (x : Int) :
    wrap64 x = x - ((x + 9223372036854775808) / 18446744073709551616) * 18446744073709551616 := by
  unfold wrap64
  omega

theorem mul64_mul64 (a b c : Int) : mul64 (mul64 a b) c = wrap64 (a * b * c) := by
  unfold mul64
  rw [wrap64_eq_sub (a * b)]
  have h : (a * b - (a * b + 9223372036854775808) / 18446744073709551616 * 18446744073709551616) * c
      = a * b * c - ((a * b + 9223372036854775808) / 18446744073709551616 * c) * 18446744073709551616 := by
    ring
  rw [h, wrap64_sub_mul]

theorem Time.Sub_pos {start end_ : Int} (h : start < end_) :
    0 < Time.Sub end_ start ∧ Time.Sub end_ start ≤ maxDuration
      ∧ Time.Sub end_ start ≤ end_ - start := by
  unfold Time.Sub minDuration maxDuration
  split_ifs <;> omega

/-- Shape of the loop's data for a forward range and a positive period: the
bucket count `unit`, the window count `mod`. -/
theorem splitTime_eq {start end_ : Int} {period : Int}
    (hse : start < end_) (hp : 0 < period) :
    splitTime start end_ period
      = some ((List.range (Time.Sub end_ start / period / 1441 + 1).toNat).map
          fun (count : Nat) => splitWindow start end_ period count) := by
  obtain ⟨hd0, hdmax, -⟩ := Time.Sub_pos hse
  have hu0 : 0 ≤ Time.Sub end_ start / period := Int.ediv_nonneg hd0.le hp.le
  have hule : Time.Sub end_ start / period ≤ Time.Sub end_ start :=
    Int.ediv_le_self _ hd0.le
  unfold splitTime
  rw [if_neg hp.ne.symm]
  simp only [div64, limit]
  rw [Int.tdiv_eq_ediv hd0.le hp.le,
    wrap64_of_range (by unfold minDuration; omega) (by omega),
    Int.tdiv_eq_ediv hu0 (by norm_num)]
  have hq0 : 0 ≤ Time.Sub end_ start / period / 1441 := Int.ediv_nonneg hu0 (by norm_num)
  rw [if_neg (by omega)]

/-- Within the loop the start offset `period * limit * count` never overflows,
and the end offset is at most `period * (limit - 1) * (count + 1)`. -/
theorem splitWindow_bounds {start end_ : Int} {period : Int}
    (hse : start < end_) (hp : 0 < period) {count : Nat}
    (hc : count < (Time.Sub end_ start / period / 1441 + 1).toNat) :
    (splitWindow start end_ period count).1 = start + 1441 * count * period
      ∧ (splitWindow start end_ period count).2 ≤ start + 1440 * (count + 1) * period
      ∧ 1441 * (count : Int) * period ≤ Time.Sub end_ start := by
  obtain ⟨hd0, hdmax, -⟩ := Time.Sub_pos hse
  have hu0 : 0 ≤ Time.Sub end_ start / period := Int.ediv_nonneg hd0.le hp.le
  have hq0 : 0 ≤ Time.Sub end_ start / period / 1441 := Int.ediv_nonneg hu0 (by norm_num)
  have hcq : (count : Int) ≤ Time.Sub end_ start / period / 1441 := by
    have := Int.lt_toNat.mp hc
    omega
  have h1 : Time.Sub end_ start / period / 1441 * 1441 ≤ Time.Sub end_ start / period :=
    Int.ediv_mul_le _ (by norm_num)
  have h2 : Time.Sub end_ start / period * period ≤ Time.Sub end_ start :=
    Int.ediv_mul_le _ hp.ne.symm
  have h3 : 1441 * (count : Int) * period ≤ Time.Sub end_ start := by
    have h4 : 1441 * (count : Int) ≤ Time.Sub end_ start / period := by omega
    calc 1441 * (count : Int) * period
        ≤ Time.Sub end_ start / period * period := Int.mul_le_mul_of_nonneg_right h4 hp.le
      _ ≤ Time.Sub end_ start := h2
  have hc0 : (0 : Int) ≤ 1441 * (count : Int) * period := by positivity
  have hc1 : (0 : Int) ≤ 1440 * ((count : Int) + 1) * period := by positivity
  refine ⟨?_, ?_, h3⟩
  · simp only [splitWindow, Time.Add, limit, mul64_mul64]
    rw [wrap64_of_range]
    · ring
    · unfold minDuration; nlinarith
    · nlinarith
  · simp only [splitWindow, Time.Add, Time.Before, limit, mul64_mul64]
    have h5 := wrap64_le_self (x := period * (1441 - 1) * ((count : Int) + 1)) (by positivity)
    have h6 : period * (1441 - 1) * ((count : Int) + 1) = 1440 * ((count : Int) + 1) * period := by
      ring
    rw [h6] at h5
    rw [h6]
    split_ifs with h7
    · have := of_decide_eq_true h7
      omega
    · omega

/-! ## Window splitter: properties -/

/-- C1, as amended. For every `start`, every `end` after `start` and every
`period > 0` such that `end - start` is at most `1440` periods and `1440`
periods fit a `time.Duration`, `splitTime start end period` returns exactly one
window, and that window is `(start, end)`. -/
theorem splitTime_single_window (start end_ period : Int)
    (hse : start < end_) (hp : 0 < period)
    (hfit : end_ - start ≤ 1440 * period) (hrep : 1440 * period ≤ maxDuration) :
    splitTime start end_ period = some [(start, end_)] := by
  have hd : Time.Sub end_ start = end_ - start := by
    unfold Time.Sub minDuration
    unfold maxDuration at *
    split_ifs <;> omega
  have hu : (end_ - start) / period < 1441 := by
    apply Int.ediv_lt_of_lt_mul hp
    omega
  have hu0 : 0 ≤ (end_ - start) / period := Int.ediv_nonneg (by omega) hp.le
  have hq : (end_ - start) / period / 1441 = 0 := Int.ediv_eq_zero_of_lt hu0 hu
  rw [splitTime_eq hse hp, hd, hq]
  have hw : wrap64 (period * (1441 - 1) * 1) = 1440 * period := by
    rw [wrap64_of_range]
    · ring
    · unfold minDuration; omega
    · omega
  simp only [zero_add, Int.toNat_one, List.range_succ, List.range_zero, List.nil_append,
    List.map_cons, List.map_nil, splitWindow, Time.Add, Time.Before, limit, mul64_mul64,
    Nat.cast_zero, mul_zero]
  rw [hw]
  have h0 : wrap64 0 = 0 := by decide
  rw [h0]
  split_ifs with h
  · simp
  · have : ¬ end_ < start + 1440 * period := by simpa using h
    have : end_ = start + 1440 * period := by omega
    simp [this]

/-- Witness of `splitTime_single_window`: the first case of `Test_splitTime`,
twelve hours from 2000-01-01T00:00:00Z at a period of one minute. -/
theorem splitTime_single_window_witness :
    (63082281600 * Second < 63082281600 * Second + 12 * Hour ∧ 0 < Minute
      ∧ 63082281600 * Second + 12 * Hour - 63082281600 * Second ≤ 1440 * Minute
      ∧ 1440 * Minute ≤ maxDuration)
    ∧ splitTime (63082281600 * Second) (63082281600 * Second + 12 * Hour) Minute
      = some [(63082281600 * Second, 63082281600 * Second + 12 * Hour)] :=
  ⟨by decide,
    splitTime_single_window (63082281600 * Second) (63082281600 * Second + 12 * Hour) Minute
      (by decide) (by decide) (by decide) (by decide)⟩

/-- C1, as stated, fails. From 2000-01-01T00:00:00Z at a period of one minute:
a range of exactly 1441 minutes (1441 buckets) is split into two windows; a
range of 1440 minutes and 30 seconds (1440 buckets) gives one window that stops
30 seconds before `end`. At a period of 75 days, of which 1440 overflow a
`time.Duration`, a range of one day (0 buckets) gives one window that ends
before it starts. -/
theorem splitTime_single_window_counterexample :
    ((63082281600 * Second + 1441 * Minute - 63082281600 * Second) / Minute ≤ 1441
      ∧ splitTime (63082281600 * Second) (63082281600 * Second + 1441 * Minute) Minute
        = some [(63082281600 * Second, 63082281600 * Second + 1440 * Minute),
            (63082281600 * Second + 1441 * Minute, 63082281600 * Second + 1441 * Minute)])
    ∧ ((63082281600 * Second + 1440 * Minute + 30 * Second - 63082281600 * Second) / Minute
        ≤ 1441
      ∧ splitTime (63082281600 * Second) (63082281600 * Second + 1440 * Minute + 30 * Second)
          Minute
        = some [(63082281600 * Second, 63082281600 * Second + 1440 * Minute)])
    ∧ ((63082281600 * Second + 24 * Hour - 63082281600 * Second) / (75 * 24 * Hour) ≤ 1441
      ∧ maxDuration < 1440 * (75 * 24 * Hour)
      ∧ splitTime (63082281600 * Second) (63082281600 * Second + 24 * Hour) (75 * 24 * Hour)
        = some [(63082281600 * Second,
            63082281600 * Second + (1440 * (75 * 24 * Hour) - 18446744073709551616))]
      ∧ 63082281600 * Second + (1440 * (75 * 24 * Hour) - 18446744073709551616)
          < 63082281600 * Second) := by
  decide

/-- C2 at a failing input: 2881 minutes from 2000-01-01T00:00:00Z at a period of
one minute. The second and last window ends at minute 2880, one minute before
`end`. -/
theorem splitTime_last_end_failing :
    splitTime (63082281600 * Second) (63082281600 * Second + 2881 * Minute) Minute
        = some [(63082281600 * Second, 63082281600 * Second + 1440 * Minute),
            (63082281600 * Second + 1441 * Minute, 63082281600 * Second + 2880 * Minute)]
      ∧ 63082281600 * Second + 2880 * Minute ≠ 63082281600 * Second + 2881 * Minute := by
  decide

/-- C3 at a failing input: three days from 2000-01-01T00:00:00Z at a period of
one minute. Three windows are returned; the second ends at minute 2880 and the
third starts at minute 2882, two periods later. -/
theorem splitTime_gap_failing :
    splitTime (63082281600 * Second) (63082281600 * Second + 72 * Hour) Minute
        = some [(63082281600 * Second, 63082281600 * Second + 1440 * Minute),
            (63082281600 * Second + 1441 * Minute, 63082281600 * Second + 2880 * Minute),
            (63082281600 * Second + 2882 * Minute, 63082281600 * Second + 4320 * Minute)]
      ∧ (63082281600 * Second + 2882 * Minute) - (63082281600 * Second + 2880 * Minute)
        = 2 * Minute := by
  decide

/-- The gap the loop leaves between consecutive windows, for every
`start < end` and `period > 0`: window `i + 1` starts `i + 1` periods after
the end of window `i`. -/
theorem splitTime_gap (start end_ period : Int) (hse : start < end_) (hp : 0 < period)
    (ws : List (Int × Int)) (hws : splitTime start end_ period = some ws)
    (i : Nat) (w w1 : Int × Int) (hw : ws[i]? = some w) (hw1 : ws[i + 1]? = some w1) :
    w1.1 - w.2 = (i + 1) * period := by
  rw [splitTime_eq hse hp] at hws
  obtain rfl := Option.some.inj hws
  rw [List.getElem?_map] at hw hw1
  obtain ⟨c, hc, rfl⟩ := Option.map_eq_some'.mp hw
  obtain ⟨c1, hc1, rfl⟩ := Option.map_eq_some'.mp hw1
  obtain ⟨hlt, rfl⟩ := List.getElem?_eq_some_iff.mp hc
  obtain ⟨hlt1, rfl⟩ := List.getElem?_eq_some_iff.mp hc1
  simp only [List.getElem_range] at *
  rw [List.length_range] at hlt hlt1
  obtain ⟨h1, -, h3⟩ := splitWindow_bounds hse hp hlt1
  obtain ⟨hd0, hdmax, hdle⟩ := Time.Sub_pos hse
  rw [h1]
  push_cast at h3 ⊢
  have hip : (0 : Int) ≤ ((i : Int) + 1) * period := by positivity
  have hwrap : wrap64 (period * (1441 - 1) * ((i : Int) + 1)) = 1440 * ((i : Int) + 1) * period := by
    rw [wrap64_of_range]
    · ring
    · unfold minDuration; nlinarith
    · nlinarith
  simp only [splitWindow, Time.Add, Time.Before, limit, mul64_mul64, hwrap]
  rw [if_neg]
  · ring
  · simp only [decide_eq_true_eq, not_lt]
    nlinarith

/-- C4. For every `start < end` and every `period > 0`, `splitTime` returns, and
every window `(s, e)` it returns spans at most `1440` periods:
`e - s ≤ 1440 * period`. -/
theorem splitTime_window_span (start end_ period : Int) (hse : start < end_) (hp : 0 < period) :
    ∃ ws, splitTime start end_ period = some ws ∧ ∀ w ∈ ws, w.2 - w.1 ≤ 1440 * period := by
  refine ⟨_, splitTime_eq hse hp, ?_⟩
  intro w hw
  obtain ⟨count, hc, rfl⟩ := List.mem_map.mp hw
  obtain ⟨h1, h2, -⟩ := splitWindow_bounds hse hp (List.mem_range.mp hc)
  have h3 : (0 : Int) ≤ (count : Int) * period := by positivity
  rw [h1]
  nlinarith

/-- Witness of `splitTime_window_span`: the second case of `Test_splitTime`, two
days from 2000-01-01T00:00:00Z at a period of one minute. -/
theorem splitTime_window_span_witness :
    (63082281600 * Second < 63082281600 * Second + 48 * Hour ∧ 0 < Minute)
    ∧ ∃ ws, splitTime (63082281600 * Second) (63082281600 * Second + 48 * Hour) Minute = some ws
      ∧ ∀ w ∈ ws, w.2 - w.1 ≤ 1440 * Minute :=
  ⟨by decide,
    splitTime_window_span (63082281600 * Second) (63082281600 * Second + 48 * Hour) Minute
      (by decide) (by decide)⟩

set_option maxRecDepth 1000000 in
/-- C5 at a failing input: 1441 minutes from 2000-01-01T00:00:00Z at a period of
one minute. The second window starts and ends at `end`: it is empty. On the
longer range of `1441 * 1441` minutes from the same start, 1442 windows are
returned and the last one ends one minute before it starts. -/
theorem splitTime_window_order_failing :
    (splitTime (63082281600 * Second) (63082281600 * Second + 1441 * Minute) Minute
        = some [(63082281600 * Second, 63082281600 * Second + 1440 * Minute),
            (63082281600 * Second + 1441 * Minute, 63082281600 * Second + 1441 * Minute)]
      ∧ ¬ (63082281600 * Second + 1441 * Minute < 63082281600 * Second + 1441 * Minute))
    ∧ ((splitTime (63082281600 * Second) (63082281600 * Second + 1441 * 1441 * Minute)
          Minute).map (fun ws => (ws.length, ws[1441]?))
        = some (1442, some (63082281600 * Second + 1441 * 1441 * Minute,
            63082281600 * Second + 1440 * 1442 * Minute))
      ∧ 63082281600 * Second + 1440 * 1442 * Minute
          < 63082281600 * Second + 1441 * 1441 * Minute) := by
  decide

/-! ## Series alignment: properties -/

/-- On an error series with strictly ascending instants the inner loop ends
with the value of the point whose instant equals that of `st` if there is one,
and with the `errCount` it started from otherwise. -/
theorem errCountLoop_eq_find {V : Type} (toInt : V → Int) (st : MetricStatistic V) :
    ∀ (errs : List (MetricStatistic V)) (errCount : Int),
      errs.Pairwise (fun a b => a.Timestamp < b.Timestamp) →
      errCountLoop toInt st errs errCount
        = match errs.find? (fun est => decide (est.Timestamp = st.Timestamp)) with
          | some est => toInt est.Value
          | none => errCount := by
  intro errs
  induction errs with
  | nil => intro errCount _; rfl
  | cons est rest ih =>
    intro errCount hsorted
    obtain ⟨hhead, htail⟩ := List.pairwise_cons.mp hsorted
    by_cases heq : est.Timestamp = st.Timestamp
    · have hnone : rest.find? (fun e => decide (e.Timestamp = st.Timestamp)) = none := by
        apply List.find?_eq_none.mpr
        intro x hx
        have := hhead x hx
        simp only [decide_eq_true_eq]
        omega
      simp only [errCountLoop, Time.Equal, heq, decide_True, if_true, List.find?_cons_of_pos]
      rw [ih _ htail, hnone]
    · by_cases hgt : st.Timestamp < est.Timestamp
      · have hnone : rest.find? (fun e => decide (e.Timestamp = st.Timestamp)) = none := by
          apply List.find?_eq_none.mpr
          intro x hx
          have := hhead x hx
          simp only [decide_eq_true_eq]
          omega
        simp [errCountLoop, Time.Equal, Time.After, heq, hgt, List.find?_cons, hnone]
      · simp [errCountLoop, Time.Equal, Time.After, heq, hgt, List.find?_cons, ih _ htail]

/-- C6. For every total series and every error series sorted ascending by
timestamp with distinct timestamps, the alignment loop of `calcAvalability`
produces exactly one row per point of the total series, in order; the error
count of the row is the integer value of the error point with the same
timestamp when there is one, and `0` when there is none. -/
theorem alignRows_spec {V : Type} (toInt : V → Int)
    (RequestCountStat Request5xxCountStat : List (MetricStatistic V))
    (hsorted : Request5xxCountStat.Pairwise (fun a b => a.Timestamp ≤ b.Timestamp))
    (hdistinct : (Request5xxCountStat.map (fun est => est.Timestamp)).Nodup) :
    alignRows toInt RequestCountStat Request5xxCountStat
      = RequestCountStat.map fun st =>
          { timeStamp := st.Timestamp
            normCount := toInt st.Value
            errCount :=
              match Request5xxCountStat.find? (fun est => decide (est.Timestamp = st.Timestamp)) with
              | some est => toInt est.Value
              | none => 0 } := by
  have hstrict : Request5xxCountStat.Pairwise (fun a b => a.Timestamp < b.Timestamp) := by
    have hne := List.pairwise_map.mp hdistinct
    exact (hsorted.and hne).imp (fun h => lt_of_le_of_ne h.1 h.2)
  unfold alignRows
  apply List.map_congr_left
  intro st _
  rw [errCountLoop_eq_find toInt st _ 0 hstrict]

/-- Witness of `alignRows_spec`: three total points at instants 10, 20, 30 and
two error points at instants 20 and 40. -/
theorem alignRows_spec_witness :
    (([⟨20, 5⟩, ⟨40, 7⟩] : List (MetricStatistic Int)).Pairwise
        (fun a b => a.Timestamp ≤ b.Timestamp)
      ∧ (([⟨20, 5⟩, ⟨40, 7⟩] : List (MetricStatistic Int)).map (fun est => est.Timestamp)).Nodup)
    ∧ alignRows (fun v : Int => v) [⟨10, 100⟩, ⟨20, 200⟩, ⟨30, 300⟩] [⟨20, 5⟩, ⟨40, 7⟩]
      = [⟨10, 100, 0⟩, ⟨20, 200, 5⟩, ⟨30, 300, 0⟩] :=
  ⟨by decide,
    alignRows_spec (fun v : Int => v) [⟨10, 100⟩, ⟨20, 200⟩, ⟨30, 300⟩] [⟨20, 5⟩, ⟨40, 7⟩]
      (by decide) (by decide)⟩

/-! ## Validation and metric discovery: properties -/

theorem StaticType.validate_eq_none (st : String) :
    StaticType.validate st = none
      ↔ (st = "Average" ∨ st = "Sum" ∨ st = "Minimum" ∨ st = "Maximum" ∨ st = "SampleCount") := by
  unfold StaticType.validate StaticAverage StaticSampleCount StaticSum StaticMinimum StaticMaximum
  split_ifs with h
  · simp only [true_iff]; tauto
  · simp only [false_iff, reduceCtorEq]; tauto

/-- C7. `GetMetricStatisticInput.validate` returns no error if and only if
`NameSpace` and `MetricName` are non-empty, `Dimensions` has at least one
element, `Period` is non-zero, `Start` and `End` are non-zero times and `Type`
is one of `Average`, `Sum`, `Minimum`, `Maximum`, `SampleCount`; and when it
returns an error, `GetMetricStatistic` returns that error with no datapoints,
issues no backend query and leaves the backend as it was. -/
theorem validate_iff_and_rejects {V σ E : Type} (env : Env V σ E) (s : σ)
    (input : GetMetricStatisticInput) :
    (input.validate = none
      ↔ (input.NameSpace ≠ "" ∧ input.MetricName ≠ "" ∧ 1 ≤ input.Dimensions.length
          ∧ input.Period ≠ 0 ∧ input.Start ≠ 0 ∧ input.End ≠ 0
          ∧ (input.Type_ = "Average" ∨ input.Type_ = "Sum" ∨ input.Type_ = "Minimum"
              ∨ input.Type_ = "Maximum" ∨ input.Type_ = "SampleCount")))
    ∧ ∀ err, input.validate = some err →
        GetMetricStatistic env s input
          = some { result := [], err := some (Error.text err), calls := [], state := s } := by
  constructor
  · rw [← StaticType.validate_eq_none]
    unfold GetMetricStatisticInput.validate Time.IsZero
    split_ifs with h1 h2 h3 h4 h5 h6
    · simp [h1]
    · simp [h2]
    · simp [h3]
    · simp [h4]
    · simp at h5; simp [h5]
    · simp at h6; simp [h6]
    · simp at h5 h6
      have h3' : 1 ≤ input.Dimensions.length := by omega
      cases hst : StaticType.validate input.Type_ <;> simp [h1, h2, h3', h4, h5, h6]
  · intro err herr
    unfold GetMetricStatistic
    rw [herr]

/-- The metric dimensions counted by `matchDimentions` are those whose name is
one of the required names. -/
theorem matchInner_eq (name : String) (required : List String) (matchCount : Nat) :
    matchInner name required matchCount
      = if name ∈ required then matchCount + 1 else matchCount := by
  induction required with
  | nil => simp [matchInner]
  | cons vv rest ih =>
    unfold matchInner
    by_cases h : vv = name
    · simp [h]
    · have h1 : ¬ name = vv := fun h2 => h h2.symm
      simp [h, h1, ih]

theorem matchCount_eq (required : List String) (dims : List Dimension) (n : Nat) :
    dims.foldl (fun matchCount v => matchInner v.Name required matchCount) n
      = n + (dims.filter (fun v => decide (v.Name ∈ required))).length := by
  induction dims generalizing n with
  | nil => simp
  | cons v rest ih =>
    rw [List.foldl_cons, ih, matchInner_eq]
    by_cases h : v.Name ∈ required
    · simp [h, List.filter_cons]; omega
    · simp [h, List.filter_cons]

theorem matchDimentions_iff (i : ListMetricsInput) (dims : List Dimension) :
    i.matchDimentions dims = true
      ↔ i.Dimentions.length = dims.length ∧ ∀ v ∈ dims, v.Name ∈ i.Dimentions := by
  unfold ListMetricsInput.matchDimentions
  by_cases hlen : i.Dimentions.length = dims.length
  · simp only [hlen, ne_eq, not_true_eq_false, if_false, matchCount_eq, zero_add,
      decide_eq_true_eq, true_and]
    constructor
    · intro h v hv
      have h1 : (dims.filter (fun v => decide (v.Name ∈ i.Dimentions))) = dims :=
        (List.filter_sublist dims).eq_of_length h.symm
      have h2 : v ∈ dims.filter (fun v => decide (v.Name ∈ i.Dimentions)) := by rw [h1]; exact hv
      simpa using (List.mem_filter.mp h2).2
    · intro h
      have h1 : (dims.filter (fun v => decide (v.Name ∈ i.Dimentions))) = dims :=
        List.filter_eq_self.mpr (fun v hv => by simpa using h v hv)
      rw [h1]
  · simp [hlen]

/-- C8, as amended. For every list of required dimension names and every list
of a metric's dimensions whose names are pairwise distinct,
`matchDimentions` returns true if and only if the two lists have the same
length and the set of the metric's dimension names is exactly the set of
required names. -/
theorem matchDimentions_spec (i : ListMetricsInput) (dims : List Dimension)
    (hdistinct : (dims.map (fun v => v.Name)).Nodup) :
    i.matchDimentions dims = true
      ↔ i.Dimentions.length = dims.length
        ∧ ∀ name, name ∈ dims.map (fun v => v.Name) ↔ name ∈ i.Dimentions := by
  rw [matchDimentions_iff]
  constructor
  · rintro ⟨hlen, hall⟩
    refine ⟨hlen, ?_⟩
    have hsub : dims.map (fun v => v.Name) ⊆ i.Dimentions := by
      intro name hname
      obtain ⟨v, hv, rfl⟩ := List.mem_map.mp hname
      exact hall v hv
    have hperm : (dims.map (fun v => v.Name)).Perm i.Dimentions :=
      (List.subperm_of_subset hdistinct hsub).perm_of_length_le (by simp [hlen])
    intro name
    exact hperm.mem_iff
  · rintro ⟨hlen, hset⟩
    exact ⟨hlen, fun v hv => (hset v.Name).mp (List.mem_map.mpr ⟨v, hv, rfl⟩)⟩

/-- Witness of `matchDimentions_spec`: the required names of the error-count
listing of `calcAvalability` against a metric with the same two dimensions in
the other order. -/
theorem matchDimentions_spec_witness :
    (([⟨"LoadBalancer", "app/lb/1"⟩, ⟨"TargetGroup", "targetgroup/tg/2"⟩] : List Dimension).map
        (fun v => v.Name)).Nodup
    ∧ (ListMetricsInput.matchDimentions
          ⟨"AWS/ApplicationELB", ["HTTPCode_Target_5XX_Count"], ["TargetGroup", "LoadBalancer"]⟩
          [⟨"LoadBalancer", "app/lb/1"⟩, ⟨"TargetGroup", "targetgroup/tg/2"⟩] = true
        ↔ (["TargetGroup", "LoadBalancer"].length
              = ([⟨"LoadBalancer", "app/lb/1"⟩, ⟨"TargetGroup", "targetgroup/tg/2"⟩]
                  : List Dimension).length
            ∧ ∀ name,
                name ∈ ([⟨"LoadBalancer", "app/lb/1"⟩, ⟨"TargetGroup", "targetgroup/tg/2"⟩]
                    : List Dimension).map (fun v => v.Name)
                  ↔ name ∈ ["TargetGroup", "LoadBalancer"])) :=
  ⟨by decide,
    matchDimentions_spec
      ⟨"AWS/ApplicationELB", ["HTTPCode_Target_5XX_Count"], ["TargetGroup", "LoadBalancer"]⟩
      [⟨"LoadBalancer", "app/lb/1"⟩, ⟨"TargetGroup", "targetgroup/tg/2"⟩] (by decide)⟩

/-- C8, as stated, fails: against the required names `TargetGroup` and
`LoadBalancer`, a dimension list that names `TargetGroup` twice is accepted,
although `LoadBalancer` is not among its names. -/
theorem matchDimentions_counterexample :
    ListMetricsInput.matchDimentions
        ⟨"AWS/ApplicationELB", [], ["TargetGroup", "LoadBalancer"]⟩
        [⟨"TargetGroup", "a"⟩, ⟨"TargetGroup", "b"⟩] = true
      ∧ ["TargetGroup", "LoadBalancer"].length
          = ([⟨"TargetGroup", "a"⟩, ⟨"TargetGroup", "b"⟩] : List Dimension).length
      ∧ "LoadBalancer" ∈ ["TargetGroup", "LoadBalancer"]
      ∧ "LoadBalancer" ∉ ([⟨"TargetGroup", "a"⟩, ⟨"TargetGroup", "b"⟩] : List Dimension).map
          (fun v => v.Name) := by
  decide

/-! ## Statistic aggregator: properties -/

/-- The loop over the sub-windows when the first queries succeed: it reaches
the remaining sub-windows with the responses appended to `result`, in order. -/
theorem fetchLoop_append {V σ E : Type} (env : Env V σ E) (input : GetMetricStatisticInput)
    (pre : List (Int × Int)) :
    ∀ (rest : List (Int × Int)) (s s1 : σ) (resps : List (List (Datapoint V)))
      (result : List (MetricStatistic V)) (calls : List GetMetricStatisticsInput),
      Succeeds env.GetMetricStatistics s (pre.map (mkParam env input)) resps s1 →
      fetchLoop env input (pre ++ rest) s result calls
        = fetchLoop env input rest s1
            (result ++ (resps.map (List.map (toStatistic env.zero input.Type_))).flatten)
            (calls ++ pre.map (mkParam env input)) := by
  induction pre with
  | nil =>
    intro rest s s1 resps result calls h
    cases h
    simp
  | cons w pre ih =>
    intro rest s s1 resps result calls h
    cases h with
    | cons hq hrest =>
      rw [List.cons_append, fetchLoop]
      simp only [hq]
      rw [ih rest _ _ _ _ _ hrest]
      simp [List.append_assoc]

/-- C9. For every valid input and every backend in which the query for the
sub-window `w` of index `pre.length` is the first to fail, with error `e`,
`GetMetricStatistic` returns that error together with exactly the datapoints of
the sub-windows before `w`, in arrival order, unsorted; it has issued the
queries for the sub-windows up to `w` and none for a later sub-window. -/
theorem GetMetricStatistic_first_failure {V σ E : Type} (env : Env V σ E) (s s1 s2 : σ)
    (input : GetMetricStatisticInput) (pre post : List (Int × Int)) (w : Int × Int)
    (resps : List (List (Datapoint V))) (e : E)
    (hv : input.validate = none)
    (hsplit : splitTime input.Start input.End input.Period = some (pre ++ w :: post))
    (hok : Succeeds env.GetMetricStatistics s (pre.map (mkParam env input)) resps s1)
    (hfail : env.GetMetricStatistics s1 (mkParam env input w) = (Except.error e, s2)) :
    GetMetricStatistic env s input
      = some { result := resps.flatten.map (toStatistic env.zero input.Type_)
               err := some (Error.backend e)
               calls := (pre ++ [w]).map (mkParam env input)
               state := s2 } := by
  unfold GetMetricStatistic
  rw [hv, hsplit]
  simp only
  rw [fetchLoop_append env input pre (w :: post) s s1 resps [] [] hok, fetchLoop]
  simp only [hfail]
  simp [List.map_flatten]

/-- Witness of `GetMetricStatistic_first_failure`: on `demoInput`, split into
three sub-windows, with the backend `demoEnv` started in state `0`, the first
query succeeds and the second fails. -/
theorem GetMetricStatistic_first_failure_witness :
    GetMetricStatistic demoEnv 0 demoInput
      = some { result := [⟨63082281600 * Second + 1440 * Minute, 7⟩, ⟨63082281600 * Second, 3⟩]
               err := some (Error.backend "Throttling")
               calls :=
                 [mkParam demoEnv demoInput
                    (63082281600 * Second, 63082281600 * Second + 1440 * Minute),
                  mkParam demoEnv demoInput
                    (63082281600 * Second + 1441 * Minute, 63082281600 * Second + 2880 * Minute)]
               state := 2 } :=
  GetMetricStatistic_first_failure demoEnv 0 1 2 demoInput
    [(63082281600 * Second, 63082281600 * Second + 1440 * Minute)]
    [(63082281600 * Second + 2882 * Minute, 63082281600 * Second + 4320 * Minute)]
    (63082281600 * Second + 1441 * Minute, 63082281600 * Second + 2880 * Minute)
    [[{ Timestamp := some (63082281600 * Second + 1440 * Minute), Sum := some 7, Average := none,
        Maximum := none, Minimum := none, SampleCount := none },
      { Timestamp := some (63082281600 * Second), Sum := some 3, Average := none,
        Maximum := none, Minimum := none, SampleCount := none }]]
    "Throttling" (by decide) (by decide) (Succeeds.cons rfl (Succeeds.nil 1)) rfl

/-- C10. For every valid input, split by `splitTime` into the sub-windows
`ws`, and every backend whose queries for `ws` all succeed, with `sort.Sort`
meeting its contract (the sorted list is a permutation of its argument in which
no element is `Less` than an earlier one), `GetMetricStatistic` returns no
error and a series that is sorted ascending by timestamp and is a permutation
of all the datapoints of the responses, whatever their order; it has issued one
query per sub-window. -/
theorem GetMetricStatistic_sorted_perm {V σ E : Type} (env : Env V σ E) (s s1 : σ)
    (input : GetMetricStatisticInput) (ws : List (Int × Int))
    (resps : List (List (Datapoint V)))
    (hperm : ∀ l, (env.sortSort l).Perm l)
    (hsorted : ∀ l, (env.sortSort l).Pairwise (fun a b => MetricStatistic.Less b a = false))
    (hv : input.validate = none)
    (hsplit : splitTime input.Start input.End input.Period = some ws)
    (hok : Succeeds env.GetMetricStatistics s (ws.map (mkParam env input)) resps s1) :
    ∃ out, GetMetricStatistic env s input = some out
      ∧ out.err = none
      ∧ out.result.Pairwise (fun a b => a.Timestamp ≤ b.Timestamp)
      ∧ out.result.Perm (resps.flatten.map (toStatistic env.zero input.Type_))
      ∧ out.calls = ws.map (mkParam env input)
      ∧ out.state = s1 := by
  have hloop := fetchLoop_append env input ws [] s s1 resps [] [] hok
  have hG : GetMetricStatistic env s input
      = some { result := env.sortSort (resps.flatten.map (toStatistic env.zero input.Type_))
               err := none
               calls := ws.map (mkParam env input)
               state := s1 } := by
    unfold GetMetricStatistic
    rw [hv, hsplit]
    simp only
    rw [← List.append_nil ws, hloop, fetchLoop]
    simp [List.map_flatten]
  refine ⟨_, hG, rfl, ?_, hperm _, rfl, rfl⟩
  refine (hsorted _).imp ?_
  intro a b hab
  simpa [MetricStatistic.Less, Time.Before] using hab

theorem demoEnv_sort_perm (l : List (MetricStatistic Int)) : (demoEnv.sortSort l).Perm l :=
  List.perm_insertionSort _ l

theorem demoEnv_sort_sorted (l : List (MetricStatistic Int)) :
    (demoEnv.sortSort l).Pairwise (fun a b => MetricStatistic.Less b a = false) := by
  haveI : IsTotal (MetricStatistic Int) (fun a b => a.Timestamp ≤ b.Timestamp) :=
    ⟨fun a b => le_total a.Timestamp b.Timestamp⟩
  haveI : IsTrans (MetricStatistic Int) (fun a b => a.Timestamp ≤ b.Timestamp) :=
    ⟨fun a b c hab hbc => le_trans hab hbc⟩
  have h := List.sorted_insertionSort (fun a b : MetricStatistic Int => a.Timestamp ≤ b.Timestamp) l
  refine List.Pairwise.imp ?_ h
  intro a b hab
  simpa [MetricStatistic.Less, Time.Before] using hab

/-- Witness of `GetMetricStatistic_sorted_perm`: on `demoInput`, split into
three sub-windows, with the backend `demoEnv` started in state `2`, from which
every query succeeds. -/
theorem GetMetricStatistic_sorted_perm_witness :
    ∃ out, GetMetricStatistic demoEnv 2 demoInput = some out
      ∧ out.err = none
      ∧ out.result.Pairwise (fun a b => a.Timestamp ≤ b.Timestamp)
      ∧ out.result.Perm
          [⟨63082281600 * Second + 1440 * Minute, 7⟩, ⟨63082281600 * Second, 3⟩,
           ⟨63082281600 * Second + 2880 * Minute, 7⟩, ⟨63082281600 * Second + 1441 * Minute, 3⟩,
           ⟨63082281600 * Second + 4320 * Minute, 7⟩, ⟨63082281600 * Second + 2882 * Minute, 3⟩]
      ∧ out.calls =
          [mkParam demoEnv demoInput
             (63082281600 * Second, 63082281600 * Second + 1440 * Minute),
           mkParam demoEnv demoInput
             (63082281600 * Second + 1441 * Minute, 63082281600 * Second + 2880 * Minute),
           mkParam demoEnv demoInput
             (63082281600 * Second + 2882 * Minute, 63082281600 * Second + 4320 * Minute)]
      ∧ out.state = 5 :=
  GetMetricStatistic_sorted_perm demoEnv 2 5 demoInput
    [(63082281600 * Second, 63082281600 * Second + 1440 * Minute),
     (63082281600 * Second + 1441 * Minute, 63082281600 * Second + 2880 * Minute),
     (63082281600 * Second + 2882 * Minute, 63082281600 * Second + 4320 * Minute)]
    [[{ Timestamp := some (63082281600 * Second + 1440 * Minute), Sum := some 7, Average := none,
        Maximum := none, Minimum := none, SampleCount := none },
      { Timestamp := some (63082281600 * Second), Sum := some 3, Average := none,
        Maximum := none, Minimum := none, SampleCount := none }],
     [{ Timestamp := some (63082281600 * Second + 2880 * Minute), Sum := some 7, Average := none,
        Maximum := none, Minimum := none, SampleCount := none },
      { Timestamp := some (63082281600 * Second + 1441 * Minute), Sum := some 3, Average := none,
        Maximum := none, Minimum := none, SampleCount := none }],
     [{ Timestamp := some (63082281600 * Second + 4320 * Minute), Sum := some 7, Average := none,
        Maximum := none, Minimum := none, SampleCount := none },
      { Timestamp := some (63082281600 * Second + 2882 * Minute), Sum := some 3, Average := none,
        Maximum := none, Minimum := none, SampleCount := none }]]
    demoEnv_sort_perm demoEnv_sort_sorted (by decide) (by decide)
    (Succeeds.cons rfl (Succeeds.cons rfl (Succeeds.cons rfl (Succeeds.nil 5))))

/-- Witness of `validate_iff_and_rejects`: an input without a namespace is
rejected before any query. -/
theorem validate_iff_and_rejects_witness :
    GetMetricStatistic demoEnv 0 { demoInput with NameSpace := "" }
      = some { result := []
               err := some (Error.text "GetMetricStatisticInput.NameSpace is empty")
               calls := []
               state := 0 } :=
  (validate_iff_and_rejects demoEnv 0 { demoInput with NameSpace := "" }).2
    "GetMetricStatisticInput.NameSpace is empty" (by decide)

end Sliyy
